import Mathlib

/-!
Shallow embedding of the incremental multi-origin dynamics accumulator of
`src/statdyn/TimeDep.py` (classes `TimeDep`, `TimeDep2dRigid`, `TimeDepMany`),
together with theorems settling the specification claims about it.

Positions are real 3-vectors, periodic image counts are integer 3-vectors,
orientations are quaternions, timesteps are integers (Python `int`).
-/

/-- A real 3-vector (a row of a numpy `(N, 3)` float array). -/
structure V3R where
  x : ℝ
  y : ℝ
  z : ℝ

/-- An integer 3-vector (a row of the numpy `(N, 3)` integer `image` array). -/
structure V3Z where
  x : ℤ
  y : ℤ
  z : ℤ

def V3R.add (a b : V3R) : V3R := ⟨a.x + b.x, a.y + b.y, a.z + b.z⟩

def V3R.sub (a b : V3R) : V3R := ⟨a.x - b.x, a.y - b.y, a.z - b.z⟩

/-- Component-wise product, as in numpy elementwise `*`. -/
def V3R.hadamard (a b : V3R) : V3R := ⟨a.x * b.x, a.y * b.y, a.z * b.z⟩

def V3Z.sub (a b : V3Z) : V3Z := ⟨a.x - b.x, a.y - b.y, a.z - b.z⟩

/-- Cast an integer vector to a real vector (numpy's implicit int-to-float
promotion in `image * box_dim`). -/
def V3Z.toR (a : V3Z) : V3R := ⟨(a.x : ℝ), (a.y : ℝ), (a.z : ℝ)⟩

/-- The explicit per-axis box of a hoomd snapshot (`snapshot.box.Lx` …). -/
structure Box3 where
  Lx : ℝ
  Ly : ℝ
  Lz : ℝ

/-- A simulation snapshot as consumed by `TimeDep`: per-body position, image,
orientation and rigid-body id arrays, and the box in one of its two
representations.  `box = some _` models a snapshot exposing `snapshot.box`
(hoomd style); `box = none` models the `AttributeError` fallback to
`snapshot.configuration.box` (gsd style), whose first three entries are the
box lengths. -/
structure Snapshot where
  position : List V3R
  image : List V3Z
  orientation : List (Quaternion ℝ)
  body : List ℤ
  box : Option Box3
  configurationBox : List ℝ

/-- The box length 3-vector used by `TimeDep._unwrap` (TimeDep.py:80-91):
`snapshot.box.[Lx,Ly,Lz]` when the attribute exists, otherwise
`snapshot.configuration.box[0..2]`. -/
def Snapshot.boxDim (s : Snapshot) : V3R :=
  match s.box with
  | some b => ⟨b.Lx, b.Ly, b.Lz⟩
  | none => ⟨s.configurationBox.getD 0 0, s.configurationBox.getD 1 0,
             s.configurationBox.getD 2 0⟩

/-- `TimeDep._unwrap` (TimeDep.py:65-95): per body,
`pos + (image - image_init) * box_dim`. -/
def unwrap (imageInit : List V3Z) (s : Snapshot) : List V3R :=
  let boxDim := s.boxDim
  let image := List.zipWith V3Z.sub s.image imageInit
  List.zipWith (fun p i => V3R.add p (V3R.hadamard (V3Z.toR i) boxDim))
    s.position image

/-- The per-row reduction in `TimeDep._displacement`:
`np.sqrt(np.power(v, 2).sum(1))` applied to one row. -/
noncomputable def norm3 (v : V3R) : ℝ := Real.sqrt (v.x ^ 2 + v.y ^ 2 + v.z ^ 2)

/-- The state of a `TimeDep` instance (TimeDep.py:23-48): the initial
positions and images of the origin snapshot and the capture timestep. -/
structure TimeDep where
  posInit : List V3R
  imageInit : List V3Z
  timestep : ℤ

/-- `TimeDep.__init__` / `TimeDep._init_snapshot` (TimeDep.py:23-48). -/
def TimeDep.capture (s : Snapshot) (t : ℤ) : TimeDep :=
  ⟨s.position, s.image, t⟩

/-- `TimeDep.get_time_diff` (TimeDep.py:50-63): `timestep - self.timestep`. -/
def getTimeDiff (tInit t : ℤ) : ℤ := t - tInit

/-- `TimeDep._displacement` (TimeDep.py:97-114): Euclidean norm of
`unwrap(snapshot) - pos_init`, per body. -/
noncomputable def TimeDep.displacement (td : TimeDep) (s : Snapshot) : List ℝ :=
  let curr := unwrap td.imageInit s
  List.zipWith (fun c p0 => norm3 (V3R.sub c p0)) curr td.posInit

/-- `np.max(body) + 1` in `TimeDep2dRigid._init_snapshot` (TimeDep.py:173),
clamped to ℕ for use as a slice bound (`numpy` `[:B]`).  `np.max` of a
nonempty array is its maximum; the accumulator only ever captures nonempty
snapshots. -/
def bodiesOf (body : List ℤ) : ℕ := (body.foldr max (body.headD 0) + 1).toNat

/-- The per-element branch-cut correction of `TimeDep2dRigid._rotations`
(TimeDep.py:200-201): first every value `> π` is decreased by `2π`
(`rot[rot > np.pi] -= 2 * np.pi`), then every value of the updated array
`≤ -π` is increased by `2π` (`rot[rot <= -np.pi] += 2 * np.pi`). -/
noncomputable def wrapAngle (s : ℝ) : ℝ :=
  let s1 := if Real.pi < s then s - 2 * Real.pi else s
  if s1 ≤ -Real.pi then s1 + 2 * Real.pi else s1

/-- `quaternion.as_rotation_vector(q) = 2 * log(q).vec` for the numpy
quaternion package: for a quaternion with vector part `v` and norm `|q|`,
`log q` has vector part `arccos(re/|q|) * v/|v|` (and the zero vector when
`v = 0`, as for `log(1)`). -/
noncomputable def asRotationVector (q : Quaternion ℝ) : V3R :=
  let vnorm := Real.sqrt (q.imI ^ 2 + q.imJ ^ 2 + q.imK ^ 2)
  if vnorm = 0 then ⟨0, 0, 0⟩
  else
    let theta := Real.arccos (q.re / Real.sqrt (Quaternion.normSq q))
    ⟨2 * theta * (q.imI / vnorm), 2 * theta * (q.imJ / vnorm),
     2 * theta * (q.imK / vnorm)⟩

/-- Sum of the three rotation-vector components
(`as_rotation_vector(rot_q).sum(axis=1)`, TimeDep.py:199). -/
def sumV3 (v : V3R) : ℝ := v.x + v.y + v.z

/-- The state of a `TimeDep2dRigid` instance (TimeDep.py:161-175): the base
`TimeDep` state plus the rigid-body count `bodies = np.max(body) + 1` and the
initial orientations of the first `bodies` particles. -/
structure TimeDep2dRigid where
  posInit : List V3R
  imageInit : List V3Z
  timestep : ℤ
  bodies : ℕ
  orientInit : List (Quaternion ℝ)

/-- `TimeDep2dRigid.__init__` / `_init_snapshot` (TimeDep.py:161-175). -/
def capture (s : Snapshot) (t : ℤ) : TimeDep2dRigid :=
  let b := bodiesOf s.body
  ⟨s.position, s.image, t, b, s.orientation.take b⟩

/-- `TimeDep2dRigid._rotations` (TimeDep.py:182-202): per rigid body, the
branch-cut-corrected sum of the rotation-vector components of
`orient_final / orient_init` (numpy quaternion division `q * q0⁻¹`). -/
noncomputable def TimeDep2dRigid.rotations (tr : TimeDep2dRigid) (s : Snapshot) :
    List ℝ :=
  List.zipWith (fun q q0 => wrapAngle (sumV3 (asRotationVector (q / q0))))
    (s.orientation.take tr.bodies) tr.orientInit

/-- `TimeDep2dRigid._displacement` (TimeDep.py:204-220): like
`TimeDep._displacement` but restricted to the first `bodies` entries of both
the unwrapped current positions and the initial positions. -/
noncomputable def TimeDep2dRigid.displacement (tr : TimeDep2dRigid)
    (s : Snapshot) : List ℝ :=
  let curr := (unwrap tr.imageInit s).take tr.bodies
  List.zipWith (fun c p0 => norm3 (V3R.sub c p0)) curr
    (tr.posInit.take tr.bodies)

/-- One row group of `TimeDep2dRigid.get_data` (TimeDep.py:244-264): the
per-body displacement and rotation arrays and the elapsed time. -/
structure Observation where
  displacement : List ℝ
  rotation : List ℝ
  time : ℤ

/-- The failure mode of `get_data`: numpy raises `ValueError` when the
current snapshot's per-body arrays are not broadcast-compatible with the
origin's.  No snapshot input makes `get_data` raise `IndexError`, so the
`except (IndexError, KeyError)` clause of `TimeDepMany.append`
(TimeDep.py:312) is only ever entered via `KeyError` (unseen index); a
`ValueError` is not caught there and propagates to the caller. -/
inductive GetDataError where
  | valueError

/-- `TimeDep2dRigid.get_data` (TimeDep.py:244-264), as a fallible function.
The numpy arithmetic succeeds when the current arrays are
broadcast-compatible with the origin's — equal lengths, or either side a
single row — and otherwise raises `ValueError` (at the
`image - image_init` subtraction in `_unwrap`).  The observation contents
are the engines above; they coincide with the numpy results whenever the
lengths match, which is the only case in which the theorems below evaluate
contents (in the single-row broadcast cases numpy repeats the single row
where the zipWith engines truncate to it, agreeing on the leading
entries). -/
noncomputable def TimeDep2dRigid.getData (tr : TimeDep2dRigid) (s : Snapshot)
    (t : ℤ) : Except GetDataError Observation :=
  if s.position.length = tr.posInit.length ∨ s.position.length = 1 ∨
      tr.posInit.length = 1 then
    .ok ⟨tr.displacement s, tr.rotations s, getTimeDiff tr.timestep t⟩
  else .error .valueError

/-- A `pathlib.Path` as used by `TimeDepMany`: a stem plus a suffix, with
`with_suffix` replacing the suffix (`'foo.txt' → 'foo.hdf5'`,
`'foo.hdf5' → 'foo.hdf5.bak'`). -/
structure StorePath where
  stem : String
  ext : String
deriving DecidableEq

/-- `Path.with_suffix` (as used at TimeDep.py:281 and 289). -/
def StorePath.withSuffix (p : StorePath) (e : String) : StorePath := ⟨p.stem, e⟩

/-- One Observation tagged with its origin index, as written by
`TimeDepMany.append` after `data['start_index'] = index` (TimeDep.py:310). -/
structure TaggedObservation where
  obs : Observation
  startIndex : ℤ

/-- The file system visible to `TimeDepMany`: the dataset contents stored at
each path (`none` = no file). -/
abbrev FileStore := StorePath → Option (List TaggedObservation)

/-- The state of a `TimeDepMany` instance (TimeDep.py:271-323): the dataset
path, the origin-index-to-tracker mapping `_snapshots`, and the file system
it writes through. -/
structure TimeDepMany where
  path : StorePath
  snapshots : List (ℤ × TimeDep2dRigid)
  fileStore : FileStore

/-- Dictionary lookup `self._snapshots[index]` (a missing key raises
`KeyError`, modelled as `none`). -/
def lookupIdx (l : List (ℤ × TimeDep2dRigid)) (i : ℤ) : Option TimeDep2dRigid :=
  (l.find? (fun e => e.1 == i)).map (fun e => e.2)

/-- Dictionary assignment `self._snapshots[index] = tracker`, as a
shadowing association list: `lookupIdx` returns the new tracker at `i` and
is unchanged at every other index, exactly as for the Python dict. -/
def insertIdx (l : List (ℤ × TimeDep2dRigid)) (i : ℤ) (tr : TimeDep2dRigid) :
    List (ℤ × TimeDep2dRigid) :=
  (i, tr) :: l

/-- `TimeDepMany._check_files` (TimeDep.py:287-289): if a file exists at the
dataset path, rename it to the `.hdf5.bak` backup path. -/
def checkFiles (p : StorePath) (fs : FileStore) : FileStore :=
  match fs p with
  | some c =>
    fun q =>
      if q = p.withSuffix ".hdf5.bak" then some c
      else if q = p then none
      else fs q
  | none => fs

/-- `TimeDepMany.__init__` (TimeDep.py:278-285): normalize the file name to
the `.hdf5` suffix (default `TimeDepMany.hdf5`), start with no trackers, and
back up any existing dataset file. -/
def TimeDepMany.init (filename : Option StorePath) (fs : FileStore) :
    TimeDepMany :=
  let p := match filename with
    | some f => f.withSuffix ".hdf5"
    | none => ⟨"TimeDepMany", ".hdf5"⟩
  ⟨p, [], checkFiles p fs⟩

/-- `TimeDepMany._write_file` (TimeDep.py:315-319): append rows to the
`dynamics` table of the HDF5 file at the dataset path (creating the file
when absent). -/
def TimeDepMany.writeFile (m : TimeDepMany) (rows : List TaggedObservation) :
    TimeDepMany :=
  { m with fileStore := fun q =>
      if q = m.path then some (((m.fileStore m.path).getD []) ++ rows)
      else m.fileStore q }

/-- `TimeDepMany.add_init` (TimeDep.py:291-295): store a fresh tracker at the
index, then re-run the body of `append`, which now finds the tracker and
writes its observation at the capture snapshot itself (its zero record).
`get_data` of a tracker applied to its own capture snapshot never raises
(the arrays match by construction, see `capture_getData_ok`), so the
`error` branch is unreachable; in Python it would re-enter `add_init`. -/
noncomputable def TimeDepMany.addInit (m : TimeDepMany) (s : Snapshot)
    (i t : ℤ) : TimeDepMany :=
  let tr := capture s t
  let m' : TimeDepMany := ⟨m.path, insertIdx m.snapshots i tr, m.fileStore⟩
  match tr.getData s t with
  | .ok obs => m'.writeFile [⟨obs, i⟩]
  | .error _ => m'

/-- `TimeDepMany.append` (TimeDep.py:297-313): look up the tracker at the
index and write its observation tagged with `start_index`; the `KeyError`
of an unseen index is caught by `except (IndexError, KeyError)` and falls
back to `add_init`.  A `ValueError` raised by the numpy arithmetic inside
`get_data` is *not* caught by that clause: it propagates to the caller
(modelled as `Except.error`), leaving the accumulator untouched; and no
snapshot input makes `get_data` raise the caught `IndexError`, so with a
seen index `add_init` is never re-entered. -/
noncomputable def TimeDepMany.append (m : TimeDepMany) (s : Snapshot)
    (i t : ℤ) : Except GetDataError TimeDepMany :=
  match lookupIdx m.snapshots i with
  | some tr =>
    match tr.getData s t with
    | .ok obs => .ok (m.writeFile [⟨obs, i⟩])
    | .error e => .error e
  | none => .ok (m.addInit s i t)

/-! ### Helper lemmas -/

lemma zipWith_cancel_self_mem {α β : Type} (f : α → α → β) (c : β)
    (l : List α) (h : ∀ a ∈ l, f a a = c) :
    List.zipWith f l l = List.replicate l.length c := by
  induction l with
  | nil => rfl
  | cons a l ih =>
    simp only [List.zipWith_cons_cons, List.length_cons, List.replicate]
    rw [h a (List.mem_cons_self a l), ih fun b hb => h b (List.mem_cons_of_mem a hb)]

lemma zipWith_replicate_right_ge {α β γ : Type} (f : α → β → γ) (l : List α)
    (c : β) (n : ℕ) (h : l.length ≤ n) :
    List.zipWith f l (List.replicate n c) = l.map (fun a => f a c) := by
  induction l generalizing n with
  | nil => simp
  | cons a l ih =>
    cases n with
    | zero => simp at h
    | succ n =>
      simp only [List.replicate, List.zipWith_cons_cons, List.map_cons]
      exact congrArg _ (ih n (by simpa using h))

lemma add_hadamard_zero (p L : V3R) :
    V3R.add p (V3R.hadamard (V3Z.toR ⟨0, 0, 0⟩) L) = p := by
  cases p
  simp [V3R.add, V3R.hadamard, V3Z.toR]

/-- Unwrapping a snapshot against its own image baseline returns its raw
positions (the zero-image-difference case of `TimeDep._unwrap`). -/
lemma unwrap_self_image (s : Snapshot) (h : s.position.length ≤ s.image.length) :
    unwrap s.image s = s.position := by
  unfold unwrap
  rw [zipWith_cancel_self_mem V3Z.sub ⟨0, 0, 0⟩ s.image
    (by intro a _; cases a; simp [V3Z.sub]),
    zipWith_replicate_right_ge _ _ _ _ h]
  simp [add_hadamard_zero]

lemma norm3_sub_self (c : V3R) : norm3 (V3R.sub c c) = 0 := by
  cases c
  simp [norm3, V3R.sub]

lemma asRotationVector_one : asRotationVector 1 = ⟨0, 0, 0⟩ := by
  simp [asRotationVector]

lemma wrapAngle_inside (s : ℝ) (h1 : -Real.pi < s) (h2 : s ≤ Real.pi) :
    wrapAngle s = s := by
  unfold wrapAngle
  rw [if_neg (not_lt.mpr h2), if_neg (not_le.mpr h1)]

lemma wrapAngle_zero : wrapAngle 0 = 0 :=
  wrapAngle_inside 0 (by simpa using Real.pi_pos) (le_of_lt Real.pi_pos)

/-- `get_data` of a tracker applied to its own capture snapshot never
raises: the array sizes match by construction. -/
lemma capture_getData_ok (s : Snapshot) (t : ℤ) :
    ∃ obs, (capture s t).getData s t = Except.ok obs := by
  refine ⟨⟨(capture s t).displacement s, (capture s t).rotations s,
    getTimeDiff (capture s t).timestep t⟩, ?_⟩
  unfold TimeDep2dRigid.getData
  rw [if_pos (Or.inl
    (show s.position.length = (capture s t).posInit.length from rfl))]

/-- `get_data` of a freshly captured tracker, re-observing its own capture
snapshot at any timestep `t'`: zero displacement and rotation for every
rigid body, elapsed time `t' - t`. -/
lemma capture_getData_at (s : Snapshot) (t t' : ℤ)
    (himg : s.position.length ≤ s.image.length)
    (hor : s.orientation.length = s.position.length)
    (hq : ∀ q ∈ s.orientation, q ≠ 0) :
    (capture s t).getData s t' =
      Except.ok ⟨List.replicate (min (bodiesOf s.body) s.position.length) 0,
                 List.replicate (min (bodiesOf s.body) s.position.length) 0,
                 t' - t⟩ := by
  unfold TimeDep2dRigid.getData
  rw [if_pos (Or.inl
    (show s.position.length = (capture s t).posInit.length from rfl))]
  have hdisp : (capture s t).displacement s =
      List.replicate (min (bodiesOf s.body) s.position.length) 0 := by
    unfold TimeDep2dRigid.displacement
    show List.zipWith _ ((unwrap s.image s).take (bodiesOf s.body))
      (s.position.take (bodiesOf s.body)) = _
    rw [unwrap_self_image s himg,
      zipWith_cancel_self_mem _ 0 _ (fun c _ => norm3_sub_self c),
      List.length_take]
  have hrot : (capture s t).rotations s =
      List.replicate (min (bodiesOf s.body) s.position.length) 0 := by
    unfold TimeDep2dRigid.rotations
    show List.zipWith _ (s.orientation.take (bodiesOf s.body))
      (s.orientation.take (bodiesOf s.body)) = _
    rw [zipWith_cancel_self_mem _ 0 _ ?_, List.length_take, hor]
    intro q hqmem
    rw [div_self (hq q (List.take_subset _ _ hqmem)), asRotationVector_one]
    show wrapAngle (0 + 0 + 0) = 0
    simpa using wrapAngle_zero
  rw [hdisp, hrot]
  simp [capture, getTimeDiff]

/-- The zero record: `get_data` of a freshly captured tracker at its own
snapshot and timestep is the all-zero observation. -/
lemma capture_getData_zero (s : Snapshot) (t : ℤ)
    (himg : s.position.length ≤ s.image.length)
    (hor : s.orientation.length = s.position.length)
    (hq : ∀ q ∈ s.orientation, q ≠ 0) :
    (capture s t).getData s t =
      Except.ok ⟨List.replicate (min (bodiesOf s.body) s.position.length) 0,
                 List.replicate (min (bodiesOf s.body) s.position.length) 0,
                 0⟩ := by
  simpa using capture_getData_at s t t himg hor hq

lemma lookupIdx_insert_self (l : List (ℤ × TimeDep2dRigid)) (i : ℤ)
    (tr : TimeDep2dRigid) : lookupIdx (insertIdx l i tr) i = some tr := by
  simp [lookupIdx, insertIdx, List.find?_cons]

lemma lookupIdx_insert_ne (l : List (ℤ × TimeDep2dRigid)) (i j : ℤ)
    (tr : TimeDep2dRigid) (h : j ≠ i) :
    lookupIdx (insertIdx l i tr) j = lookupIdx l j := by
  have : ((i, tr).1 == j) = false := by
    simp only [beq_eq_false_iff_ne, ne_eq]
    exact fun hij => h hij.symm
  simp [lookupIdx, insertIdx, List.find?_cons, this]

/-! ### Concrete fixtures -/

/-- The empty file system. -/
def fsEmpty : FileStore := fun _ => none

/-- A one-particle snapshot: single rigid body at the origin with identity
orientation in a unit box. -/
noncomputable def snapA : Snapshot :=
  ⟨[⟨0, 0, 0⟩], [⟨0, 0, 0⟩], [1], [0], some ⟨1, 1, 1⟩, []⟩

/-- A two-particle snapshot forming one rigid body (both `body` ids `0`,
so `bodies = 1`). -/
noncomputable def snapB : Snapshot :=
  ⟨[⟨0, 0, 0⟩, ⟨1, 0, 0⟩], [⟨0, 0, 0⟩, ⟨0, 0, 0⟩], [1, 1], [0, 0],
   some ⟨1, 1, 1⟩, []⟩

/-- The origin snapshot of the spec scenario: position `(9,0,0)`, image
`(0,0,0)`, box `(10,10,10)`. -/
noncomputable def originSnap3 : Snapshot :=
  ⟨[⟨9, 0, 0⟩], [⟨0, 0, 0⟩], [], [], some ⟨10, 10, 10⟩, []⟩

/-- The current snapshot of the spec scenario: position `(1,0,0)`, image
`(1,0,0)`, box `(10,10,10)`. -/
noncomputable def currSnap3 : Snapshot :=
  ⟨[⟨1, 0, 0⟩], [⟨1, 0, 0⟩], [], [], some ⟨10, 10, 10⟩, []⟩

lemma snapA_orient_ne_zero : ∀ q ∈ snapA.orientation, q ≠ (0 : Quaternion ℝ) := by
  intro q hm
  rw [show snapA.orientation = [1] from rfl, List.mem_singleton] at hm
  rw [hm]
  exact one_ne_zero

lemma snapB_orient_ne_zero : ∀ q ∈ snapB.orientation, q ≠ (0 : Quaternion ℝ) := by
  intro q hm
  have h1 : q = 1 := by simpa [snapB] using hm
  rw [h1]
  exact one_ne_zero

/-! ### Claim theorems -/

/-- **C2**: for every current snapshot with per-body wrapped position `p`,
integer image vector `I` and box lengths `L`, and stored origin image `I0`,
the unwrapper returns per body exactly `p + (I - I0) ⊙ L` (total, no error
condition), and it returns the same value whether `L` comes from the
snapshot's explicit `Lx, Ly, Lz` or from the first three entries of its
generic `configuration.box` descriptor. -/
theorem unwrap_contract (I0 : List V3Z) (s : Snapshot) (b : Box3)
    (hbox : s.box = some b) :
    (∀ (i : ℕ) (p : V3R) (im i0 : V3Z),
        s.position[i]? = some p → s.image[i]? = some im → I0[i]? = some i0 →
        (unwrap I0 s)[i]? =
          some (V3R.add p (V3R.hadamard (V3Z.toR (V3Z.sub im i0))
            ⟨b.Lx, b.Ly, b.Lz⟩))) ∧
    (∀ c : List ℝ,
        c.getD 0 0 = b.Lx → c.getD 1 0 = b.Ly → c.getD 2 0 = b.Lz →
        unwrap I0 { s with box := none, configurationBox := c } =
          unwrap I0 s) := by
  constructor
  · intro i p im i0 hp him hi0
    simp [unwrap, List.getElem?_zipWith', hp, him, hi0, Snapshot.boxDim, hbox]
  · intro c h0 h1 h2
    have hdim : ({ s with box := none, configurationBox := c } :
        Snapshot).boxDim = s.boxDim := by
      show (⟨c.getD 0 0, c.getD 1 0, c.getD 2 0⟩ : V3R) = s.boxDim
      rw [h0, h1, h2]
      simp [Snapshot.boxDim, hbox]
    simp only [unwrap, hdim]

/-- Witness for `unwrap_contract` at the one-particle snapshot `snapA`. -/
theorem unwrap_contract_witness :
    (unwrap [⟨0, 0, 0⟩] snapA)[0]? =
      some (V3R.add ⟨0, 0, 0⟩
        (V3R.hadamard (V3Z.toR (V3Z.sub ⟨0, 0, 0⟩ ⟨0, 0, 0⟩)) ⟨1, 1, 1⟩)) ∧
    unwrap [⟨0, 0, 0⟩]
        { snapA with box := none, configurationBox := [1, 1, 1, 0, 0, 0] } =
      unwrap [⟨0, 0, 0⟩] snapA := by
  have h := unwrap_contract [⟨0, 0, 0⟩] snapA ⟨1, 1, 1⟩ rfl
  exact ⟨h.1 0 ⟨0, 0, 0⟩ ⟨0, 0, 0⟩ ⟨0, 0, 0⟩ rfl rfl rfl,
    h.2 [1, 1, 1, 0, 0, 0] rfl rfl rfl⟩

/-- **C3**: the displacement engine returns, per body index `i`, the
non-negative Euclidean norm of (unwrapped current position `i` − initial
position `i`), order-preserving; and on the spec scenario (box `(10,10,10)`,
origin `(9,0,0)` at image `(0,0,0)`, current `(1,0,0)` at image `(1,0,0)`)
the displacement is exactly `2`. -/
theorem displacement_engine_contract (td : TimeDep) (s : Snapshot) :
    (∀ (i : ℕ) (c p0 : V3R),
        (unwrap td.imageInit s)[i]? = some c → td.posInit[i]? = some p0 →
        (td.displacement s)[i]? = some (norm3 (V3R.sub c p0)) ∧
          0 ≤ norm3 (V3R.sub c p0)) ∧
    (TimeDep.capture originSnap3 0).displacement currSnap3 = [2] := by
  constructor
  · intro i c p0 hc hp0
    refine ⟨?_, Real.sqrt_nonneg _⟩
    simp [TimeDep.displacement, List.getElem?_zipWith', hc, hp0]
  · have h4 : Real.sqrt 4 = 2 := by
      rw [show (4 : ℝ) = 2 ^ 2 by norm_num]
      exact Real.sqrt_sq (by norm_num)
    simp [TimeDep.displacement, TimeDep.capture, unwrap, Snapshot.boxDim,
      originSnap3, currSnap3, V3R.add, V3R.sub, V3R.hadamard, V3Z.toR,
      V3Z.sub, norm3]
    norm_num [h4]

/-- Witness for `displacement_engine_contract`: the pointwise clause
instantiated on the scenario snapshots. -/
theorem displacement_engine_contract_witness :
    ((TimeDep.capture originSnap3 0).displacement currSnap3)[0]? =
      some (norm3 (V3R.sub (V3R.add ⟨1, 0, 0⟩
        (V3R.hadamard (V3Z.toR (V3Z.sub ⟨1, 0, 0⟩ ⟨0, 0, 0⟩)) ⟨10, 10, 10⟩))
        ⟨9, 0, 0⟩)) ∧
    0 ≤ norm3 (V3R.sub (V3R.add ⟨1, 0, 0⟩
      (V3R.hadamard (V3Z.toR (V3Z.sub ⟨1, 0, 0⟩ ⟨0, 0, 0⟩)) ⟨10, 10, 10⟩))
      ⟨9, 0, 0⟩) := by
  refine (displacement_engine_contract (TimeDep.capture originSnap3 0)
    currSnap3).1 0 _ _ ?_ rfl
  simp [unwrap, currSnap3, originSnap3, TimeDep.capture, Snapshot.boxDim,
    List.getElem?_zipWith']

/-- **C4 counterexample**: the claim asserts the final reported rotation
always lies in `(−π, π]`, but the branch-cut correction is applied once:
an input sum of `10` (which exceeds `3π ≈ 9.42` and is attainable, since
rotation-vector component sums range up to `2√3·π ≈ 10.88`) is corrected to
`10 − 2π ≈ 3.72`, which is still greater than `π`. -/
theorem wrapAngle_outside_range_counterexample :
    wrapAngle 10 = 10 - 2 * Real.pi ∧ Real.pi < wrapAngle 10 := by
  have hpi : Real.pi < 3.15 := Real.pi_lt_d2
  have hpos : 0 < Real.pi := Real.pi_pos
  have h1 : wrapAngle 10 = 10 - 2 * Real.pi := by
    unfold wrapAngle
    rw [if_pos (show Real.pi < 10 by linarith),
      if_neg (not_le.mpr (show -Real.pi < 10 - 2 * Real.pi by linarith))]
  exact ⟨h1, by rw [h1]; linarith⟩

/-- **C4 (amended)**: the branch-cut correction returns `s − 2π` when
`s > π`, `s + 2π` when `s ≤ −π`, and `s` unchanged when `−π < s ≤ π`; an
input of exactly `π + ε` yields `−π + ε` and one of exactly `−π − ε` yields
`π − ε`; and the final reported rotation lies in `(−π, π]` whenever the
input lies in `(−3π, 3π]` (a single correction cannot bring values beyond
`3π` into range, see the counterexample). -/
theorem wrapAngle_branch_correction :
    (∀ s : ℝ, Real.pi < s → wrapAngle s = s - 2 * Real.pi) ∧
    (∀ s : ℝ, s ≤ -Real.pi → wrapAngle s = s + 2 * Real.pi) ∧
    (∀ s : ℝ, -Real.pi < s → s ≤ Real.pi → wrapAngle s = s) ∧
    (∀ e : ℝ, 0 < e → wrapAngle (Real.pi + e) = -Real.pi + e) ∧
    (∀ e : ℝ, 0 ≤ e → wrapAngle (-Real.pi - e) = Real.pi - e) ∧
    (∀ s : ℝ, -(3 * Real.pi) < s → s ≤ 3 * Real.pi →
      -Real.pi < wrapAngle s ∧ wrapAngle s ≤ Real.pi) := by
  have hpos : 0 < Real.pi := Real.pi_pos
  have hgt : ∀ s : ℝ, Real.pi < s → wrapAngle s = s - 2 * Real.pi := by
    intro s h
    unfold wrapAngle
    rw [if_pos h, if_neg (not_le.mpr (show -Real.pi < s - 2 * Real.pi by linarith))]
  have hle : ∀ s : ℝ, s ≤ -Real.pi → wrapAngle s = s + 2 * Real.pi := by
    intro s h
    unfold wrapAngle
    rw [if_neg (not_lt.mpr (show s ≤ Real.pi by linarith)), if_pos h]
  refine ⟨hgt, hle, wrapAngle_inside, ?_, ?_, ?_⟩
  · intro e he
    rw [hgt _ (by linarith)]
    ring
  · intro e he
    rw [hle _ (by linarith)]
    ring
  · intro s h1 h2
    by_cases hs : Real.pi < s
    · rw [hgt s hs]
      constructor <;> linarith
    · by_cases hs2 : s ≤ -Real.pi
      · rw [hle s hs2]
        constructor <;> linarith
      · rw [wrapAngle_inside s (lt_of_not_le hs2) (not_lt.mp hs)]
        exact ⟨lt_of_not_le hs2, not_lt.mp hs⟩

/-- Witness for `wrapAngle_branch_correction`: values strictly inside
`(−π, π]` pass through unchanged, e.g. `0`. -/
theorem wrapAngle_branch_correction_witness : wrapAngle 0 = 0 :=
  wrapAngle_branch_correction.2.2.1 0 (by simpa using Real.pi_pos)
    (le_of_lt Real.pi_pos)

/-- **C5**: a freshly captured tracker, observed at its own capture snapshot
and timestep, yields the all-zero observation — elapsed time `0`,
displacement `0` for every tracked body and rotation `0` for every rigid
body — which `TimeDep2dRigid.__init__` immediately stores as the Origin's
first record. -/
theorem capture_zero_observation (s : Snapshot) (t : ℤ)
    (himg : s.image.length = s.position.length)
    (hor : s.orientation.length = s.position.length)
    (hq : ∀ q ∈ s.orientation, q ≠ 0) :
    (capture s t).getData s t =
      Except.ok ⟨List.replicate (min (bodiesOf s.body) s.position.length) 0,
                 List.replicate (min (bodiesOf s.body) s.position.length) 0,
                 0⟩ :=
  capture_getData_zero s t (le_of_eq himg.symm) hor hq

/-- Witness for `capture_zero_observation` on the one-particle snapshot
`snapA` at timestep `7`. -/
theorem capture_zero_observation_witness :
    (capture snapA 7).getData snapA 7 = Except.ok ⟨[0], [0], 0⟩ :=
  capture_zero_observation snapA 7 rfl rfl snapA_orient_ne_zero

/-- **C6 counterexample**: observing, at timestep `0`, a tracker captured at
timestep `5` does not fail with any error — the code has no
`InvalidTimestepError` — but returns the observation with negative elapsed
time `-5`. -/
theorem observe_before_origin_succeeds :
    (capture snapA 5).getData snapA 0 = Except.ok ⟨[0], [0], -5⟩ :=
  capture_getData_at snapA 5 0 (le_of_eq rfl) rfl snapA_orient_ne_zero

/-- **C6 (amended)**: `observe` never fails on account of the timestep: for
every queried timestep `t` (including `t` before the origin's capture
timestep) it returns exactly one observation whose elapsed time is
`t − origin.timestep`, negative elapsed times included; no
`InvalidTimestepError` exists in the code. -/
theorem observe_elapsed_time (tr : TimeDep2dRigid) (s : Snapshot) (t : ℤ)
    (h : s.position.length = tr.posInit.length) :
    tr.getData s t =
      Except.ok ⟨tr.displacement s, tr.rotations s,
        getTimeDiff tr.timestep t⟩ ∧
    getTimeDiff tr.timestep t = t - tr.timestep := by
  refine ⟨?_, rfl⟩
  unfold TimeDep2dRigid.getData
  rw [if_pos (Or.inl h)]

/-- Witness for `observe_elapsed_time`, querying a tracker captured at
timestep `5` at the earlier timestep `0`. -/
theorem observe_elapsed_time_witness :
    (capture snapA 5).getData snapA 0 =
      Except.ok ⟨(capture snapA 5).displacement snapA,
        (capture snapA 5).rotations snapA, getTimeDiff 5 0⟩ :=
  (observe_elapsed_time (capture snapA 5) snapA 0 rfl).1

/-- **C8**: the rigid-body displacement engine returns exactly `bodies`
elements, each computed from only the first `bodies` entries of the origin
arrays and the current snapshot's arrays — even when those arrays are
longer.  The third clause makes the data dependence explicit: any tracker
and snapshot agreeing on the first `bodies` entries (and the box) produce
the same result. -/
theorem rigid_displacement_restricts (tr : TimeDep2dRigid) (s : Snapshot)
    (hpos : tr.bodies ≤ s.position.length)
    (himg : tr.bodies ≤ s.image.length)
    (h0 : tr.bodies ≤ tr.imageInit.length)
    (hp0 : tr.bodies ≤ tr.posInit.length) :
    (tr.displacement s).length = tr.bodies ∧
    (∀ i : ℕ, i < tr.bodies →
      (tr.displacement s)[i]? =
        ((unwrap tr.imageInit s)[i]?.bind fun c =>
          tr.posInit[i]?.map fun p0 => norm3 (V3R.sub c p0))) ∧
    (∀ (tr' : TimeDep2dRigid) (s' : Snapshot),
      tr'.bodies = tr.bodies →
      tr'.posInit.take tr.bodies = tr.posInit.take tr.bodies →
      tr'.imageInit.take tr.bodies = tr.imageInit.take tr.bodies →
      s'.position.take tr.bodies = s.position.take tr.bodies →
      s'.image.take tr.bodies = s.image.take tr.bodies →
      s'.boxDim = s.boxDim →
      tr'.displacement s' = tr.displacement s) := by
  have hlen : ∀ (t' : TimeDep2dRigid) (x : Snapshot),
      (t'.displacement x).length =
        min (min t'.bodies (unwrap t'.imageInit x).length)
          (min t'.bodies t'.posInit.length) := by
    intro t' x
    simp [TimeDep2dRigid.displacement, List.length_zipWith, List.length_take]
  refine ⟨?_, ?_, ?_⟩
  · rw [hlen]
    have : (unwrap tr.imageInit s).length =
        min s.position.length (min s.image.length tr.imageInit.length) := by
      simp [unwrap, List.length_zipWith]
    omega
  · intro i hi
    unfold TimeDep2dRigid.displacement
    rw [List.getElem?_zipWith', List.getElem?_take_of_lt hi,
      List.getElem?_take_of_lt hi]
    cases hc : (unwrap tr.imageInit s)[i]? <;>
      cases hp : tr.posInit[i]? <;> simp
  · intro tr' s' hb hpinit himginit hspos hsimg hbox
    unfold TimeDep2dRigid.displacement
    rw [hb]
    have hunwrap : (unwrap tr'.imageInit s').take tr.bodies =
        (unwrap tr.imageInit s).take tr.bodies := by
      unfold unwrap
      rw [List.take_zipWith, List.take_zipWith, List.take_zipWith,
        List.take_zipWith, hspos, hsimg, himginit, hbox]
    rw [hunwrap, hpinit]

/-- Witness for `rigid_displacement_restricts`: the spec scenario of a
two-particle snapshot forming a single rigid body (`bodies = 1`) whose
displacement array has exactly one element. -/
theorem rigid_displacement_restricts_witness :
    ((capture snapB 0).displacement snapB).length = 1 := by
  have h := rigid_displacement_restricts (capture snapB 0) snapB
    (by decide) (by decide) (by decide) (by decide)
  exact h.1

/-- **C9**: constructing an accumulator whose `.hdf5` dataset path already
holds a file renames that file aside to the `.hdf5.bak` backup path rather
than overwriting or appending; the new accumulator starts with no trackers
and no file (a fresh dataset) at the target path, and every unrelated path
is untouched. -/
theorem init_backs_up_existing (filename : StorePath) (fs : FileStore) :
    (TimeDepMany.init (some filename) fs).path = filename.withSuffix ".hdf5" ∧
    (TimeDepMany.init (some filename) fs).snapshots = [] ∧
    (TimeDepMany.init (some filename) fs).fileStore
      (filename.withSuffix ".hdf5") = none ∧
    (∀ c, fs (filename.withSuffix ".hdf5") = some c →
      (TimeDepMany.init (some filename) fs).fileStore
        ((filename.withSuffix ".hdf5").withSuffix ".hdf5.bak") = some c) ∧
    (fs (filename.withSuffix ".hdf5") = none →
      (TimeDepMany.init (some filename) fs).fileStore = fs) ∧
    (∀ q : StorePath, q ≠ filename.withSuffix ".hdf5" →
      q ≠ (filename.withSuffix ".hdf5").withSuffix ".hdf5.bak" →
      (TimeDepMany.init (some filename) fs).fileStore q = fs q) := by
  have hne : filename.withSuffix ".hdf5" ≠
      (filename.withSuffix ".hdf5").withSuffix ".hdf5.bak" := by
    intro h
    have := congrArg StorePath.ext h
    simp [StorePath.withSuffix] at this
  refine ⟨rfl, rfl, ?_, ?_, ?_, ?_⟩
  · show checkFiles (filename.withSuffix ".hdf5") fs
      (filename.withSuffix ".hdf5") = none
    unfold checkFiles
    cases hfs : fs (filename.withSuffix ".hdf5") with
    | none => exact hfs
    | some c => simp [hne]
  · intro c hfs
    show checkFiles (filename.withSuffix ".hdf5") fs
      ((filename.withSuffix ".hdf5").withSuffix ".hdf5.bak") = some c
    unfold checkFiles
    rw [hfs]
    simp
  · intro hfs
    show checkFiles (filename.withSuffix ".hdf5") fs = fs
    unfold checkFiles
    rw [hfs]
  · intro q hq1 hq2
    show checkFiles (filename.withSuffix ".hdf5") fs q = fs q
    unfold checkFiles
    cases hfs : fs (filename.withSuffix ".hdf5") with
    | none => rfl
    | some c => simp [hq1, hq2]

/-- A file store holding one (empty) dataset at the path `data.hdf5`. -/
def fsOne : FileStore :=
  fun q => if q = ⟨"data", ".hdf5"⟩ then some [] else none

/-- Witness for `init_backs_up_existing`: building an accumulator over
`fsOne` with file name `data.txt` leaves no file at `data.hdf5` and moves
the old contents to `data.hdf5.bak`. -/
theorem init_backs_up_existing_witness :
    (TimeDepMany.init (some ⟨"data", ".txt"⟩) fsOne).fileStore
      ⟨"data", ".hdf5"⟩ = none ∧
    (TimeDepMany.init (some ⟨"data", ".txt"⟩) fsOne).fileStore
      ⟨"data", ".hdf5.bak"⟩ = some [] := by
  have h := init_backs_up_existing ⟨"data", ".txt"⟩ fsOne
  refine ⟨h.2.2.1, ?_⟩
  exact h.2.2.2.1 [] (by simp [fsOne, StorePath.withSuffix])

/-- **C1**: the first `append` call with an unseen origin index always
succeeds, creates exactly one tracker (hence one Origin) for that index —
other indices unchanged — and writes exactly one zero-record observation
tagged with that index; every later call with the same index never creates
a second Origin: whenever the call produces a successor state its tracker
mapping is unchanged and still holds the same tracker (a `ValueError` from
a non-broadcastable snapshot propagates without touching the accumulator),
and on a size-matched snapshot the call succeeds, computing its single
observation from that same tracker's initial reference state. -/
theorem accumulator_lazy_origin (m : TimeDepMany) (s : Snapshot) (i t : ℤ)
    (himg : s.image.length = s.position.length)
    (hor : s.orientation.length = s.position.length)
    (hq : ∀ q ∈ s.orientation, q ≠ 0) :
    (lookupIdx m.snapshots i = none →
      ∃ m', m.append s i t = Except.ok m' ∧
        m'.path = m.path ∧
        lookupIdx m'.snapshots i = some (capture s t) ∧
        (∀ j : ℤ, j ≠ i →
          lookupIdx m'.snapshots j = lookupIdx m.snapshots j) ∧
        m'.fileStore m.path =
          some (((m.fileStore m.path).getD []) ++
            [⟨⟨List.replicate (min (bodiesOf s.body) s.position.length) 0,
               List.replicate (min (bodiesOf s.body) s.position.length) 0,
               0⟩, i⟩])) ∧
    (∀ (tr : TimeDep2dRigid) (m' : TimeDepMany),
      lookupIdx m.snapshots i = some tr → m.append s i t = Except.ok m' →
      m'.path = m.path ∧ m'.snapshots = m.snapshots ∧
      lookupIdx m'.snapshots i = some tr) ∧
    (∀ tr : TimeDep2dRigid, lookupIdx m.snapshots i = some tr →
      s.position.length = tr.posInit.length →
      m.append s i t = Except.ok (m.writeFile
        [⟨⟨tr.displacement s, tr.rotations s, getTimeDiff tr.timestep t⟩,
          i⟩])) := by
  refine ⟨?_, ?_, ?_⟩
  · intro hnone
    have happ : m.append s i t = Except.ok (m.addInit s i t) := by
      unfold TimeDepMany.append
      rw [hnone]
    have hzero := capture_getData_zero s t (le_of_eq himg.symm) hor hq
    have hadd : m.addInit s i t =
        TimeDepMany.writeFile
          ⟨m.path, insertIdx m.snapshots i (capture s t), m.fileStore⟩
          [⟨⟨List.replicate (min (bodiesOf s.body) s.position.length) 0,
             List.replicate (min (bodiesOf s.body) s.position.length) 0,
             0⟩, i⟩] := by
      unfold TimeDepMany.addInit
      simp only [hzero]
    refine ⟨m.addInit s i t, happ, ?_, ?_, ?_, ?_⟩
    · rw [hadd]
      rfl
    · rw [hadd]
      exact lookupIdx_insert_self m.snapshots i (capture s t)
    · intro j hj
      rw [hadd]
      exact lookupIdx_insert_ne m.snapshots i j (capture s t) hj
    · rw [hadd]
      simp [TimeDepMany.writeFile]
  · intro tr m' hfound hok
    unfold TimeDepMany.append at hok
    cases hgd : tr.getData s t with
    | ok obs =>
      simp only [hfound, hgd, Except.ok.injEq] at hok
      rw [← hok]
      exact ⟨rfl, rfl, hfound⟩
    | error e =>
      simp only [hfound, hgd] at hok
      exact absurd hok (by simp)
  · intro tr hfound hmatch
    have hok : tr.getData s t =
        Except.ok ⟨tr.displacement s, tr.rotations s,
          getTimeDiff tr.timestep t⟩ := by
      unfold TimeDep2dRigid.getData
      rw [if_pos (Or.inl hmatch)]
    unfold TimeDepMany.append
    simp only [hfound, hok]

/-- Witness for `accumulator_lazy_origin`: a fresh accumulator receives the
one-particle snapshot `snapA` at unseen index `0` (first clause), and the
resulting accumulator is observed again at the same index and timestep `5`
(third clause), reusing the stored tracker. -/
theorem accumulator_lazy_origin_witness :
    (∃ m', (TimeDepMany.init none fsEmpty).append snapA 0 3 =
        Except.ok m' ∧
      lookupIdx m'.snapshots 0 = some (capture snapA 3)) ∧
    ((TimeDepMany.init none fsEmpty).addInit snapA 0 0).append snapA 0 5 =
      Except.ok (((TimeDepMany.init none fsEmpty).addInit snapA 0 0).writeFile
        [⟨⟨(capture snapA 0).displacement snapA,
           (capture snapA 0).rotations snapA, getTimeDiff 0 5⟩, 0⟩]) := by
  constructor
  · obtain ⟨m', hok, _, hlook, _, _⟩ :=
      (accumulator_lazy_origin (TimeDepMany.init none fsEmpty) snapA 0 3
        rfl rfl snapA_orient_ne_zero).1 rfl
    exact ⟨m', hok, hlook⟩
  · exact (accumulator_lazy_origin
      ((TimeDepMany.init none fsEmpty).addInit snapA 0 0) snapA 0 5
      rfl rfl snapA_orient_ne_zero).2.2 (capture snapA 0) rfl rfl
